import Mathlib

/-!
Shallow embedding of the beatmap-normalization core of the `sabers`
repository (src/schemas/beatmap/{util,v2,v3,mod,standard}.rs).

Conventions of the embedding:
* Rust `f32` values are modelled as exact rationals (`ℚ`); the claims under
  study are about the algebraic structure of the computations, not about
  floating-point rounding.
* Rust `u32` is modelled as `ℕ` with explicit wrap-around (`% 2^32`) at the
  one subtraction that can underflow (release-mode wrapping semantics).
* Rust `i32` is modelled as `ℤ`.
* Fallible serde decoders are modelled as `Except String`-valued functions.
* Version strings are Lean `String`s; Rust `str::starts_with` is modelled as
  a character-list prefix test (which is what it computes for ASCII markers).
-/

deriving instance DecidableEq for Except

namespace Sabers

/-- Model of Rust `str::starts_with`: `p` is a character-prefix of `s`. -/
def starts_with (s p : String) : Bool := p.data.isPrefixOf s.data

/-! ## `schemas/beatmap/util.rs` -/

/-- `deserialize_precision` from util.rs: decodes a "mapping extensions"
precision-encoded integer coordinate into a rational coordinate.
Source:
`if original <= -1000 || original >= 1000 { original/1000 ± 1 } else { original }`. -/
def deserialize_precision (original : ℤ) : ℚ :=
  if original ≤ -1000 ∨ 1000 ≤ original then
    if original < 0 then (original : ℚ) / 1000 + 1 else (original : ℚ) / 1000 - 1
  else (original : ℚ)

/-! ## `schemas/beatmap/v2.rs` -/

namespace v2

/-- `v2::NoteType` (`_type` field of a v2 note). -/
inductive NoteType where
  | Red
  | Blue
  | Bomb
deriving DecidableEq, Repr

/-- `v2::NoteDirection`. -/
inductive NoteDirection where
  | Up
  | Down
  | Left
  | Right
  | UpLeft
  | UpRight
  | DownLeft
  | DownRight
  | Any
deriving DecidableEq, Repr

/-- The custom `Deserialize` impl for `v2::NoteDirection`: nominal values
`0..=8`, the mapping-extensions 360-degree range `1000..=1360` bucketed into
45-wide arcs, and everything else a decode error with message
`invalid value: {other}`. -/
def NoteDirection.deserialize (value : ℕ) : Except String NoteDirection :=
  if value = 0 then .ok .Up
  else if value = 1 then .ok .Down
  else if value = 2 then .ok .Left
  else if value = 3 then .ok .Right
  else if value = 4 then .ok .UpLeft
  else if value = 5 then .ok .UpRight
  else if value = 6 then .ok .DownLeft
  else if value = 7 then .ok .DownRight
  else if value = 8 then .ok .Any
  else if 1000 ≤ value ∧ value < 1023 then .ok .Down
  else if 1023 ≤ value ∧ value < 1068 then .ok .DownLeft
  else if 1068 ≤ value ∧ value < 1113 then .ok .Left
  else if 1113 ≤ value ∧ value < 1158 then .ok .UpLeft
  else if 1158 ≤ value ∧ value < 1203 then .ok .Up
  else if 1203 ≤ value ∧ value < 1248 then .ok .UpRight
  else if 1248 ≤ value ∧ value < 1293 then .ok .Right
  else if 1293 ≤ value ∧ value < 1338 then .ok .DownRight
  else if 1338 ≤ value ∧ value ≤ 1360 then .ok .Down
  else .error ("invalid value: " ++ toString value)

/-- `v2::Note` (decoded form; `x`/`y` already went through
`deserialize_precision`, `custom_data` omitted as it is never read). -/
structure Note where
  beat : ℚ
  x : ℚ
  y : ℚ
  note_type : NoteType
  direction : NoteDirection
  angle_offset : Option ℚ
deriving DecidableEq, Repr

/-- `v2::Obstacle` (decoded form; `wall_type` is the raw `u32` `_type`). -/
structure Obstacle where
  beat : ℚ
  wall_type : ℕ
  x : ℚ
  duration : ℚ
  width : ℚ
deriving DecidableEq, Repr

/-- `v2::BpmEvent` (field `b` is named `song_time`, field `m` is named
`beats` in the source, although it holds a BPM value). -/
structure BpmEvent where
  song_time : ℚ
  beats : ℚ
deriving DecidableEq, Repr

/-- `v2::Beatmap` (decoded form). -/
structure Beatmap where
  version : String
  notes : List Note
  obstacles : List Obstacle
  bpm_events : List BpmEvent
deriving DecidableEq, Repr

end v2

/-! ## `schemas/beatmap/v3.rs` -/

namespace v3

/-- `v3::NoteColor`. -/
inductive NoteColor where
  | Red
  | Blue
deriving DecidableEq, Repr

/-- `v3::NoteDirection`. -/
inductive NoteDirection where
  | Up
  | Down
  | Left
  | Right
  | UpLeft
  | UpRight
  | DownLeft
  | DownRight
  | Any
deriving DecidableEq, Repr

/-- The custom `Deserialize` impl for `v3::NoteDirection`; textually
identical to the v2 one in the source. -/
def NoteDirection.deserialize (value : ℕ) : Except String NoteDirection :=
  if value = 0 then .ok .Up
  else if value = 1 then .ok .Down
  else if value = 2 then .ok .Left
  else if value = 3 then .ok .Right
  else if value = 4 then .ok .UpLeft
  else if value = 5 then .ok .UpRight
  else if value = 6 then .ok .DownLeft
  else if value = 7 then .ok .DownRight
  else if value = 8 then .ok .Any
  else if 1000 ≤ value ∧ value < 1023 then .ok .Down
  else if 1023 ≤ value ∧ value < 1068 then .ok .DownLeft
  else if 1068 ≤ value ∧ value < 1113 then .ok .Left
  else if 1113 ≤ value ∧ value < 1158 then .ok .UpLeft
  else if 1158 ≤ value ∧ value < 1203 then .ok .Up
  else if 1203 ≤ value ∧ value < 1248 then .ok .UpRight
  else if 1248 ≤ value ∧ value < 1293 then .ok .Right
  else if 1293 ≤ value ∧ value < 1338 then .ok .DownRight
  else if 1338 ≤ value ∧ value ≤ 1360 then .ok .Down
  else .error ("invalid value: " ++ toString value)

/-- `v3::ColorNote` (decoded form). -/
structure ColorNote where
  beat : ℚ
  x : ℚ
  y : ℚ
  angle_offset : Option ℚ
  color : NoteColor
  direction : NoteDirection
deriving DecidableEq, Repr

/-- `v3::BombNote` (decoded form). -/
structure BombNote where
  beat : ℚ
  x : ℚ
  y : ℚ
deriving DecidableEq, Repr

/-- `v3::Obstacle` (decoded form; height/vertical position stored directly). -/
structure Obstacle where
  beat : ℚ
  x : ℚ
  y : ℚ
  duration : ℚ
  width : ℚ
  height : ℚ
deriving DecidableEq, Repr

/-- `v3::BurstSlider` (decoded form). -/
structure BurstSlider where
  beat : ℚ
  x : ℚ
  y : ℚ
  color : NoteColor
  direction : NoteDirection
  tail_beat : ℚ
  tail_x : ℚ
  tail_y : ℚ
  num_slices : ℕ
  squish_amount : ℚ
deriving DecidableEq, Repr

/-- `v3::BpmEvent` (field `b` named `song_time`, field `m` named `beats`). -/
structure BpmEvent where
  song_time : ℚ
  beats : ℚ
deriving DecidableEq, Repr

/-- `v3::Beatmap` (decoded form; the unread `fake_*` collections are
omitted). -/
structure Beatmap where
  version : String
  color_notes : List ColorNote
  bomb_notes : List BombNote
  obstacles : List Obstacle
  burst_sliders : List BurstSlider
  bpm_events : List BpmEvent
deriving DecidableEq, Repr

end v3

/-! ## `schemas/beatmap/mod.rs`: version dispatch (`AnyverBeatmap::inner_parse`)

The raw JSON document is abstracted to exactly what `inner_parse` inspects:
the top-level `_version` and `version` fields, each of which may be absent,
a string, or some non-string JSON value.  The calls to the per-dialect serde
adapters (`v2::Beatmap::deserialize` / `v3::Beatmap::deserialize`) are
abstracted to "routed to that adapter". -/

/-- A top-level version-marker field value: either a JSON string or some
non-string JSON value (on which `try_as_str` fails). -/
inductive VersionMarker where
  | str (s : String)
  | nonString
deriving DecidableEq, Repr

/-- The raw document, restricted to the two fields `inner_parse` reads:
`v2Marker` models `value.get("_version")`, `v3Marker` models
`value.get("version")`. -/
structure RawDoc where
  v2Marker : Option VersionMarker
  v3Marker : Option VersionMarker
deriving DecidableEq, Repr

/-- Outcome of `AnyverBeatmap::inner_parse`, with the adapter invocations
left abstract. -/
inductive DispatchResult where
  /-- `Ok(AnyverBeatmap::V2(v2::Beatmap::deserialize(value)?))` was taken. -/
  | routedV2
  /-- `Ok(AnyverBeatmap::V3(v3::Beatmap::deserialize(value)?))` was taken. -/
  | routedV3
  /-- `try_as_str` failed: `AnyverParseError::ExpectedType`. -/
  | expectedTypeError
  /-- `AnyverParseError::UnsupportedVersion(s)`. -/
  | unsupported (s : String)
deriving DecidableEq, Repr

/-- `AnyverBeatmap::inner_parse` (mod.rs lines 111-128): `_version` is
checked first; if present its string must start with `2.` to route to the
v2 adapter, otherwise the literal string is reported as unsupported.  Only
when `_version` is absent is `version` consulted, with prefix `3.` routing
to the v3 adapter.  If neither field exists the error carries `unknown`. -/
def inner_parse (doc : RawDoc) : DispatchResult :=
  match doc.v2Marker with
  | some (.str version) =>
      if starts_with version "2." then .routedV2 else .unsupported version
  | some .nonString => .expectedTypeError
  | none =>
      match doc.v3Marker with
      | some (.str version) =>
          if starts_with version "3." then .routedV3 else .unsupported version
      | some .nonString => .expectedTypeError
      | none => .unsupported "unknown"

/-! ## `schemas/beatmap/standard.rs`: unified model and tempo timeline -/

/-- `standard::NoteColor`. -/
inductive NoteColor where
  | Red
  | Blue
deriving DecidableEq, Repr

/-- `TryFrom<v2::NoteType> for NoteColor` (fails on `Bomb`). -/
def NoteColor.tryFromV2 : v2.NoteType → Option NoteColor
  | .Red => some .Red
  | .Blue => some .Blue
  | .Bomb => none

/-- `From<v3::NoteColor> for NoteColor`. -/
def NoteColor.fromV3 : v3.NoteColor → NoteColor
  | .Red => .Red
  | .Blue => .Blue

/-- `standard::NoteDirection`. -/
inductive NoteDirection where
  | Up
  | Down
  | Left
  | Right
  | UpLeft
  | UpRight
  | DownLeft
  | DownRight
  | Any
deriving DecidableEq, Repr

/-- `From<v2::NoteDirection> for NoteDirection`. -/
def NoteDirection.fromV2 : v2.NoteDirection → NoteDirection
  | .Up => .Up
  | .Down => .Down
  | .Left => .Left
  | .Right => .Right
  | .UpLeft => .UpLeft
  | .UpRight => .UpRight
  | .DownLeft => .DownLeft
  | .DownRight => .DownRight
  | .Any => .Any

/-- `From<v3::NoteDirection> for NoteDirection`. -/
def NoteDirection.fromV3 : v3.NoteDirection → NoteDirection
  | .Up => .Up
  | .Down => .Down
  | .Left => .Left
  | .Right => .Right
  | .UpLeft => .UpLeft
  | .UpRight => .UpRight
  | .DownLeft => .DownLeft
  | .DownRight => .DownRight
  | .Any => .Any

/-- `standard::Beat` (a color note). -/
structure Beat where
  beat : ℚ
  time : ℚ
  x : ℚ
  y : ℚ
  angle_offset : Option ℚ
  color : NoteColor
  direction : NoteDirection
deriving DecidableEq, Repr

/-- `TryFrom<v2::Note> for Beat`: fails on bombs, otherwise converts
(the source's inner `.try_into().unwrap()` on the note type is realized by
the `NoteColor.tryFromV2` match, which is `some` exactly off the bomb case). -/
def Beat.tryFromV2 (value : v2.Note) : Option Beat :=
  if value.note_type = v2.NoteType.Bomb then none
  else
    match NoteColor.tryFromV2 value.note_type with
    | some c =>
        some { beat := value.beat, time := 0, x := value.x, y := value.y,
               angle_offset := value.angle_offset, color := c,
               direction := NoteDirection.fromV2 value.direction }
    | none => none

/-- `From<v3::ColorNote> for Beat`. -/
def Beat.fromV3 (value : v3.ColorNote) : Beat :=
  { beat := value.beat, time := 0, x := value.x, y := value.y,
    angle_offset := value.angle_offset, color := NoteColor.fromV3 value.color,
    direction := NoteDirection.fromV3 value.direction }

/-- `standard::Bomb`. -/
structure Bomb where
  beat : ℚ
  time : ℚ
  x : ℚ
  y : ℚ
deriving DecidableEq, Repr

/-- `TryFrom<v2::Note> for Bomb`: succeeds exactly on bombs. -/
def Bomb.tryFromV2 (value : v2.Note) : Option Bomb :=
  if value.note_type ≠ v2.NoteType.Bomb then none
  else some { beat := value.beat, time := 0, x := value.x, y := value.y }

/-- `From<v3::BombNote> for Bomb`. -/
def Bomb.fromV3 (value : v3.BombNote) : Bomb :=
  { beat := value.beat, time := 0, x := value.x, y := value.y }

/-- `standard::Obstacle`. -/
structure Obstacle where
  beat : ℚ
  time : ℚ
  x : ℚ
  y : ℚ
  duration_beats : ℚ
  duration : ℚ
  end_time : ℚ
  width : ℚ
  height : ℚ
deriving DecidableEq, Repr

/-- Wrapping `u32` subtraction (release-mode Rust semantics): the legacy
wall decode computes `value - 1000` on a `u32`, which wraps around for
`value < 1000`. -/
def u32sub (a b : ℕ) : ℕ := (a + 4294967296 - b) % 4294967296

/-- The legacy packed wall-geometry decode from
`From<v2::Obstacle> for Obstacle` (standard.rs lines 290-315): maps the
raw `_type` integer to `(vertical position, height)`. -/
def wallTypeDecode (t : ℕ) : ℚ × ℚ :=
  if t = 0 then (0, 5)
  else if t = 1 then (2, 3)
  else
    let h : ℕ := if 4001 ≤ t ∧ t ≤ 410000 then u32sub t 4001 / 1000 else u32sub t 1000
    let hq : ℚ := (h : ℚ) / 1000 * 5 * 1000 + 1000
    let sh : ℚ := if 4001 ≤ t ∧ t ≤ 410000 then ((u32sub t 4001 % 1000 : ℕ) : ℚ) else 0
    let l : ℚ := sh / 750 * 5 * 1000 + 1334
    (l / 1000 - 2, (hq - 1000) / 1000)

/-- `From<v2::Obstacle> for Obstacle`. -/
def Obstacle.fromV2 (value : v2.Obstacle) : Obstacle :=
  { beat := value.beat, time := 0, x := value.x,
    y := (wallTypeDecode value.wall_type).1,
    duration_beats := value.duration, duration := 0, end_time := 0,
    width := value.width, height := (wallTypeDecode value.wall_type).2 }

/-- `From<v3::Obstacle> for Obstacle`. -/
def Obstacle.fromV3 (value : v3.Obstacle) : Obstacle :=
  { beat := value.beat, time := 0, x := value.x, y := value.y,
    duration_beats := value.duration, duration := 0, end_time := 0,
    width := value.width, height := value.height }

/-- `standard::Chain`. -/
structure Chain where
  beat : ℚ
  time : ℚ
  x : ℚ
  y : ℚ
  color : NoteColor
  direction : NoteDirection
  tail_beat : ℚ
  tail_time : ℚ
  tail_x : ℚ
  tail_y : ℚ
  num_slices : ℕ
  squish_factor : ℚ
deriving DecidableEq, Repr

/-- `From<v3::BurstSlider> for Chain`. -/
def Chain.fromV3 (value : v3.BurstSlider) : Chain :=
  { beat := value.beat, time := 0, x := value.x, y := value.y,
    color := NoteColor.fromV3 value.color,
    direction := NoteDirection.fromV3 value.direction,
    tail_beat := value.tail_beat, tail_time := 0,
    tail_x := value.tail_x, tail_y := value.tail_y,
    num_slices := value.num_slices, squish_factor := value.squish_amount }

/-- `standard::BpmEvent` (dialect-independent tempo-change event). -/
structure BpmEvent where
  song_time : ℚ
  beats : ℚ
deriving DecidableEq, Repr

/-- `From<v2::BpmEvent> for BpmEvent`. -/
def BpmEvent.fromV2 (value : v2.BpmEvent) : BpmEvent :=
  { song_time := value.song_time, beats := value.beats }

/-- `From<v3::BpmEvent> for BpmEvent`. -/
def BpmEvent.fromV3 (value : v3.BpmEvent) : BpmEvent :=
  { song_time := value.song_time, beats := value.beats }

/-- `standard::BpmChangeEvent`: one tempo segment; `bpm` is the tempo,
`start_bpm_time` the beat at which it starts, `start_time` the elapsed
seconds at that beat. -/
structure BpmChangeEvent where
  bpm : ℚ
  start_time : ℚ
  start_bpm_time : ℚ
deriving DecidableEq, Repr

/-- The segment-evaluation formula used both by `BpmTracker::new` and
`BpmTracker::beat_to_song_time`:
`start_time + ((t - start_bpm_time) / bpm) * 60`. -/
def segEval (c : BpmChangeEvent) (t : ℚ) : ℚ :=
  c.start_time + (t - c.start_bpm_time) / c.bpm * 60

/-- The segment pushed for `event` after segment `last`
(`BpmTracker::new`, loop body, standard.rs lines 438-442). -/
def nextChange (last : BpmChangeEvent) (event : BpmEvent) : BpmChangeEvent :=
  { bpm := event.beats, start_time := segEval last event.song_time,
    start_bpm_time := event.song_time }

/-- The event loop of `BpmTracker::new` (standard.rs lines 432-443): for
each event, read the last pushed change (or a base-tempo seed if none was
pushed) and append the next segment. -/
def buildChanges (base_bpm : ℚ) :
    List BpmChangeEvent → List BpmEvent → List BpmChangeEvent
  | changes, [] => changes
  | changes, event :: rest =>
      buildChanges base_bpm
        (changes ++
          [nextChange (changes.getLast?.getD ⟨base_bpm, 0, 0⟩) event]) rest

/-- `standard::BpmTracker`. -/
structure BpmTracker where
  base_bpm : ℚ
  changes : List BpmChangeEvent
deriving DecidableEq, Repr

/-- `BpmTracker::new` (standard.rs lines 417-446): if the first event is at
beat 0 its tempo replaces the declared base tempo and seeds the segment
list; all remaining events are consumed in order by the loop. -/
def BpmTracker.new (start_bpm : ℚ) (events : List BpmEvent) : BpmTracker :=
  match events with
  | [] => { base_bpm := start_bpm, changes := [] }
  | e0 :: rest =>
      if e0.song_time = 0 then
        { base_bpm := e0.beats,
          changes := buildChanges e0.beats [⟨e0.beats, 0, 0⟩] rest }
      else
        { base_bpm := start_bpm,
          changes := buildChanges start_bpm [] (e0 :: rest) }

/-- The while loop of `BpmTracker::beat_to_song_time` (standard.rs lines
453-456): starting from the first segment, advance to the next segment
while its start beat is strictly below the queried beat. -/
def findSegment (c : BpmChangeEvent) :
    List BpmChangeEvent → ℚ → BpmChangeEvent
  | [], _ => c
  | c' :: rest, time =>
      if c'.start_bpm_time < time then findSegment c' rest time else c

/-- `BpmTracker::beat_to_song_time` (standard.rs lines 448-459). -/
def BpmTracker.beat_to_song_time (tracker : BpmTracker) (time : ℚ) : ℚ :=
  match tracker.changes with
  | [] => time * (60 / tracker.base_bpm)
  | c :: rest => segEval (findSegment c rest time) time

/-- `standard::Beatmap`: the unified model. -/
structure Beatmap where
  beats : List Beat
  bombs : List Bomb
  obstacles : List Obstacle
  chains : List Chain
deriving DecidableEq, Repr

/-- `Beatmap::from_v2` (standard.rs lines 33-71).  The source's note loop
pushes each note into `bombs` or `beats` according to its type; this is
rendered as the two `filterMap`s (the `TryFrom` conversions succeed exactly
on the corresponding branch of the loop). -/
def Beatmap.from_v2 (beatmap : v2.Beatmap) (bpm : ℚ) : Beatmap :=
  let bpm_tracker := BpmTracker.new bpm (beatmap.bpm_events.map BpmEvent.fromV2)
  let bombs := beatmap.notes.filterMap fun note =>
    (Bomb.tryFromV2 note).map fun b =>
      { b with time := bpm_tracker.beat_to_song_time b.beat }
  let beats := beatmap.notes.filterMap fun note =>
    (Beat.tryFromV2 note).map fun b =>
      { b with time := bpm_tracker.beat_to_song_time b.beat }
  let obstacles := beatmap.obstacles.map fun value =>
    let x := Obstacle.fromV2 value
    let start_time := bpm_tracker.beat_to_song_time x.beat
    let end_time := bpm_tracker.beat_to_song_time (x.beat + x.duration_beats)
    { x with time := start_time, end_time := end_time,
             duration := end_time - start_time }
  { beats := beats, bombs := bombs, obstacles := obstacles, chains := [] }

/-- `Beatmap::from_v3` (standard.rs lines 73-121). -/
def Beatmap.from_v3 (beatmap : v3.Beatmap) (bpm : ℚ) : Beatmap :=
  let bpm_tracker := BpmTracker.new bpm (beatmap.bpm_events.map BpmEvent.fromV3)
  let bombs := beatmap.bomb_notes.map fun value =>
    let x := Bomb.fromV3 value
    { x with time := bpm_tracker.beat_to_song_time x.beat }
  let beats := beatmap.color_notes.map fun value =>
    let x := Beat.fromV3 value
    { x with time := bpm_tracker.beat_to_song_time x.beat }
  let obstacles := beatmap.obstacles.map fun value =>
    let x := Obstacle.fromV3 value
    let start_time := bpm_tracker.beat_to_song_time x.beat
    let end_time := bpm_tracker.beat_to_song_time (x.beat + x.duration_beats)
    { x with time := start_time, end_time := end_time,
             duration := end_time - start_time }
  let chains := beatmap.burst_sliders.map fun value =>
    let x := Chain.fromV3 value
    { x with time := bpm_tracker.beat_to_song_time x.beat,
             tail_time := bpm_tracker.beat_to_song_time x.tail_beat }
  { beats := beats, bombs := bombs, obstacles := obstacles, chains := chains }

/-! ## Proof-side machinery for the tempo timeline -/

/-- Recursive restatement of the `BpmTracker::new` event loop: instead of
re-reading the last pushed element from the accumulated list, thread it
through the recursion (`buildChanges_eq` proves the two agree). -/
def buildFrom (last : BpmChangeEvent) : List BpmEvent → List BpmChangeEvent
  | [] => []
  | e :: rest => nextChange last e :: buildFrom (nextChange last e) rest

lemma buildChanges_eq (base : ℚ) :
    ∀ (events : List BpmEvent) (acc : List BpmChangeEvent),
      buildChanges base acc events =
        acc ++ buildFrom (acc.getLast?.getD ⟨base, 0, 0⟩) events := by
  intro events
  induction events with
  | nil => intro acc; simp [buildChanges, buildFrom]
  | cons e rest ih =>
      intro acc
      simp only [buildChanges]
      rw [ih]
      simp [List.getLast?_concat, buildFrom]

/-- Well-formedness of a segment list relative to its head segment `c`:
each segment has positive tempo, start beats are nondecreasing, and each
segment's start time is the previous segment's evaluation at its start beat
(which is exactly how `BpmTracker::new` computes it). -/
def GoodChain : BpmChangeEvent → List BpmChangeEvent → Prop
  | _, [] => True
  | c, c' :: rest =>
      0 < c'.bpm ∧ c.start_bpm_time ≤ c'.start_bpm_time ∧
        c'.start_time = segEval c c'.start_bpm_time ∧ GoodChain c' rest

lemma segEval_mono (c : BpmChangeEvent) (hb : 0 < c.bpm) {t1 t2 : ℚ}
    (h : t1 ≤ t2) : segEval c t1 ≤ segEval c t2 := by
  have h1 : (t1 - c.start_bpm_time) / c.bpm ≤ (t2 - c.start_bpm_time) / c.bpm :=
    (div_le_div_iff_of_pos_right hb).mpr (by linarith)
  have h2 := mul_le_mul_of_nonneg_right h1 (by norm_num : (0:ℚ) ≤ 60)
  exact add_le_add_left h2 _

lemma segEval_start (c : BpmChangeEvent) : segEval c c.start_bpm_time = c.start_time := by
  simp [segEval]

/-- Evaluating the segment search at the head segment's own start beat
returns the head's start time (the search never advances, since later
segments start no earlier). -/
lemma findSegment_start (c : BpmChangeEvent) (cs : List BpmChangeEvent)
    (hg : GoodChain c cs) :
    segEval (findSegment c cs c.start_bpm_time) c.start_bpm_time = c.start_time := by
  cases cs with
  | nil => simp [findSegment, segEval]
  | cons c' rest =>
      simp only [GoodChain] at hg
      have hlt : ¬ c'.start_bpm_time < c.start_bpm_time := not_lt.mpr hg.2.1
      simp only [findSegment]
      rw [if_neg hlt]
      exact segEval_start c

/-- Monotonicity of the segment lookup-and-evaluate over a well-formed
segment list. -/
lemma chain_mono (cs : List BpmChangeEvent) :
    ∀ (c : BpmChangeEvent), 0 < c.bpm → GoodChain c cs →
      ∀ t1 t2 : ℚ, t1 ≤ t2 →
        segEval (findSegment c cs t1) t1 ≤ segEval (findSegment c cs t2) t2 := by
  induction cs with
  | nil =>
      intro c hb _ t1 t2 h
      simpa [findSegment] using segEval_mono c hb h
  | cons c' rest ih =>
      intro c hb hg t1 t2 h
      simp only [GoodChain] at hg
      obtain ⟨hb', hle, hlink, hg'⟩ := hg
      simp only [findSegment]
      by_cases h1 : c'.start_bpm_time < t1
      · have h2 : c'.start_bpm_time < t2 := lt_of_lt_of_le h1 h
        rw [if_pos h1, if_pos h2]
        exact ih c' hb' hg' t1 t2 h
      · by_cases h2 : c'.start_bpm_time < t2
        · rw [if_neg h1, if_pos h2]
          calc segEval c t1
              ≤ segEval c c'.start_bpm_time := segEval_mono c hb (le_of_not_lt h1)
            _ = c'.start_time := hlink.symm
            _ = segEval (findSegment c' rest c'.start_bpm_time) c'.start_bpm_time :=
                  (findSegment_start c' rest hg').symm
            _ ≤ segEval (findSegment c' rest t2) t2 :=
                  ih c' hb' hg' c'.start_bpm_time t2 (le_of_lt h2)
        · rw [if_neg h1, if_neg h2]
          exact segEval_mono c hb h

/-- The segment list built from beat-ordered, positive-tempo events
(starting no earlier than the seed segment) is well-formed. -/
lemma goodChain_buildFrom :
    ∀ (events : List BpmEvent) (last : BpmChangeEvent),
      (∀ e ∈ events, 0 < e.beats) →
      events.Pairwise (fun a b => a.song_time ≤ b.song_time) →
      (∀ e ∈ events, last.start_bpm_time ≤ e.song_time) →
      GoodChain last (buildFrom last events) := by
  intro events
  induction events with
  | nil => intro last _ _ _; simp [buildFrom, GoodChain]
  | cons e rest ih =>
      intro last hpos hord hle
      simp only [buildFrom, GoodChain]
      refine ⟨hpos e (by simp), hle e (by simp), rfl, ?_⟩
      apply ih
      · intro e' he'; exact hpos e' (by simp [he'])
      · exact hord.of_cons
      · intro e' he'
        exact (List.pairwise_cons.mp hord).1 e' he'

/-- Monotonicity of `beat_to_song_time` for a tracker built from
beat-ordered events with positive tempos and a positive base tempo. -/
lemma tracker_mono (base : ℚ) (events : List BpmEvent)
    (hbase : 0 < base)
    (hpos : ∀ e ∈ events, 0 < e.beats)
    (hord : events.Pairwise fun a b => a.song_time ≤ b.song_time)
    {t1 t2 : ℚ} (h : t1 ≤ t2) :
    (BpmTracker.new base events).beat_to_song_time t1 ≤
      (BpmTracker.new base events).beat_to_song_time t2 := by
  cases events with
  | nil =>
      show t1 * (60 / base) ≤ t2 * (60 / base)
      have h60 : (0:ℚ) ≤ 60 / base := by positivity
      exact mul_le_mul_of_nonneg_right h h60
  | cons e0 rest =>
      by_cases h0 : e0.song_time = 0
      · have hch : (BpmTracker.new base (e0 :: rest)).changes =
            ⟨e0.beats, 0, 0⟩ :: buildFrom ⟨e0.beats, 0, 0⟩ rest := by
          simp only [BpmTracker.new, if_pos h0]
          rw [buildChanges_eq]
          simp
        have hhead : (0:ℚ) < e0.beats := hpos e0 (by simp)
        have hgc : GoodChain ⟨e0.beats, 0, 0⟩ (buildFrom ⟨e0.beats, 0, 0⟩ rest) := by
          apply goodChain_buildFrom
          · intro e' he'; exact hpos e' (by simp [he'])
          · exact hord.of_cons
          · intro e' he'
            have h1 := (List.pairwise_cons.mp hord).1 e' he'
            show (0:ℚ) ≤ e'.song_time
            rw [h0] at h1
            exact h1
        have heval : ∀ t, (BpmTracker.new base (e0 :: rest)).beat_to_song_time t =
            segEval (findSegment ⟨e0.beats, 0, 0⟩ (buildFrom ⟨e0.beats, 0, 0⟩ rest) t) t := by
          intro t
          simp only [BpmTracker.beat_to_song_time, hch]
        rw [heval t1, heval t2]
        exact chain_mono _ _ hhead hgc t1 t2 h
      · have hch : (BpmTracker.new base (e0 :: rest)).changes =
            nextChange ⟨base, 0, 0⟩ e0 :: buildFrom (nextChange ⟨base, 0, 0⟩ e0) rest := by
          simp only [BpmTracker.new, if_neg h0]
          rw [buildChanges_eq]
          simp [buildFrom]
        have hhead : (0:ℚ) < (nextChange ⟨base, 0, 0⟩ e0).bpm := hpos e0 (by simp)
        have hgc : GoodChain (nextChange ⟨base, 0, 0⟩ e0)
            (buildFrom (nextChange ⟨base, 0, 0⟩ e0) rest) := by
          apply goodChain_buildFrom
          · intro e' he'; exact hpos e' (by simp [he'])
          · exact hord.of_cons
          · intro e' he'
            exact (List.pairwise_cons.mp hord).1 e' he'
        have heval : ∀ t, (BpmTracker.new base (e0 :: rest)).beat_to_song_time t =
            segEval (findSegment (nextChange ⟨base, 0, 0⟩ e0)
              (buildFrom (nextChange ⟨base, 0, 0⟩ e0) rest) t) t := by
          intro t
          simp only [BpmTracker.beat_to_song_time, hch]
        rw [heval t1, heval t2]
        exact chain_mono _ _ hhead hgc t1 t2 h

/-! ## Claim theorems -/

/-- Out-of-domain inputs of the v2 extended-direction decode are rejected
with the `invalid value` error. -/
lemma v2_deserialize_out_of_domain (value : ℕ)
    (hv : (8 < value ∧ value < 1000) ∨ 1360 < value) :
    v2.NoteDirection.deserialize value =
      .error ("invalid value: " ++ toString value) := by
  delta v2.NoteDirection.deserialize
  rw [if_neg (by omega : ¬ value = 0), if_neg (by omega : ¬ value = 1),
      if_neg (by omega : ¬ value = 2), if_neg (by omega : ¬ value = 3),
      if_neg (by omega : ¬ value = 4), if_neg (by omega : ¬ value = 5),
      if_neg (by omega : ¬ value = 6), if_neg (by omega : ¬ value = 7),
      if_neg (by omega : ¬ value = 8),
      if_neg (by omega : ¬ (1000 ≤ value ∧ value < 1023)),
      if_neg (by omega : ¬ (1023 ≤ value ∧ value < 1068)),
      if_neg (by omega : ¬ (1068 ≤ value ∧ value < 1113)),
      if_neg (by omega : ¬ (1113 ≤ value ∧ value < 1158)),
      if_neg (by omega : ¬ (1158 ≤ value ∧ value < 1203)),
      if_neg (by omega : ¬ (1203 ≤ value ∧ value < 1248)),
      if_neg (by omega : ¬ (1248 ≤ value ∧ value < 1293)),
      if_neg (by omega : ¬ (1293 ≤ value ∧ value < 1338)),
      if_neg (by omega : ¬ (1338 ≤ value ∧ value ≤ 1360))]

/-- Out-of-domain inputs of the v3 extended-direction decode are rejected
with the `invalid value` error. -/
lemma v3_deserialize_out_of_domain (value : ℕ)
    (hv : (8 < value ∧ value < 1000) ∨ 1360 < value) :
    v3.NoteDirection.deserialize value =
      .error ("invalid value: " ++ toString value) := by
  delta v3.NoteDirection.deserialize
  rw [if_neg (by omega : ¬ value = 0), if_neg (by omega : ¬ value = 1),
      if_neg (by omega : ¬ value = 2), if_neg (by omega : ¬ value = 3),
      if_neg (by omega : ¬ value = 4), if_neg (by omega : ¬ value = 5),
      if_neg (by omega : ¬ value = 6), if_neg (by omega : ¬ value = 7),
      if_neg (by omega : ¬ value = 8),
      if_neg (by omega : ¬ (1000 ≤ value ∧ value < 1023)),
      if_neg (by omega : ¬ (1023 ≤ value ∧ value < 1068)),
      if_neg (by omega : ¬ (1068 ≤ value ∧ value < 1113)),
      if_neg (by omega : ¬ (1113 ≤ value ∧ value < 1158)),
      if_neg (by omega : ¬ (1158 ≤ value ∧ value < 1203)),
      if_neg (by omega : ¬ (1203 ≤ value ∧ value < 1248)),
      if_neg (by omega : ¬ (1248 ≤ value ∧ value < 1293)),
      if_neg (by omega : ¬ (1293 ≤ value ∧ value < 1338)),
      if_neg (by omega : ¬ (1338 ≤ value ∧ value ≤ 1360))]

/-- C2 (counterexample): the claim says raw direction 1337 decodes to
`Down`, but 1337 lies in the `1293..1338` bucket, which the code maps to
`DownRight` (in both dialects). -/
theorem ext_direction_1337_not_down :
    v2.NoteDirection.deserialize 1337 = .ok .DownRight ∧
    ¬ v2.NoteDirection.deserialize 1337 = .ok .Down ∧
    v3.NoteDirection.deserialize 1337 = .ok .DownRight ∧
    ¬ v3.NoteDirection.deserialize 1337 = .ok .Down := by
  refine ⟨rfl, ?_, rfl, ?_⟩
  · intro h
    rw [show v2.NoteDirection.deserialize 1337 = .ok .DownRight from rfl] at h
    exact v2.NoteDirection.noConfusion (Except.ok.inj h)
  · intro h
    rw [show v3.NoteDirection.deserialize 1337 = .ok .DownRight from rfl] at h
    exact v3.NoteDirection.noConfusion (Except.ok.inj h)

/-- C2 (amended): the extended-direction decode maps 1000, 1022, 1023,
1337, 1338, 1360 to Down, Down, DownLeft, DownRight, Down, Down
respectively (1337 falls in the `[1293,1338)` DownRight bucket), and
rejects every value outside the nominal domain `0..=8` and the extended
range `[1000, 1360]` with a decode error, in both dialects. -/
theorem ext_direction_decode_amended :
    (v2.NoteDirection.deserialize 1000 = .ok .Down ∧
     v2.NoteDirection.deserialize 1022 = .ok .Down ∧
     v2.NoteDirection.deserialize 1023 = .ok .DownLeft ∧
     v2.NoteDirection.deserialize 1337 = .ok .DownRight ∧
     v2.NoteDirection.deserialize 1338 = .ok .Down ∧
     v2.NoteDirection.deserialize 1360 = .ok .Down) ∧
    (v3.NoteDirection.deserialize 1000 = .ok .Down ∧
     v3.NoteDirection.deserialize 1022 = .ok .Down ∧
     v3.NoteDirection.deserialize 1023 = .ok .DownLeft ∧
     v3.NoteDirection.deserialize 1337 = .ok .DownRight ∧
     v3.NoteDirection.deserialize 1338 = .ok .Down ∧
     v3.NoteDirection.deserialize 1360 = .ok .Down) ∧
    (∀ value : ℕ, (8 < value ∧ value < 1000) ∨ 1360 < value →
      v2.NoteDirection.deserialize value = .error ("invalid value: " ++ toString value) ∧
      v3.NoteDirection.deserialize value = .error ("invalid value: " ++ toString value)) := by
  refine ⟨⟨rfl, rfl, rfl, rfl, rfl, rfl⟩, ⟨rfl, rfl, rfl, rfl, rfl, rfl⟩, ?_⟩
  intro value hv
  exact ⟨v2_deserialize_out_of_domain value hv, v3_deserialize_out_of_domain value hv⟩

/-- C2 (witness): value 1361 is outside both domains and is rejected. -/
theorem ext_direction_decode_amended_witness :
    v2.NoteDirection.deserialize 1361 = .error ("invalid value: " ++ toString 1361) ∧
    v3.NoteDirection.deserialize 1361 = .error ("invalid value: " ++ toString 1361) :=
  ext_direction_decode_amended.2.2 1361 (Or.inr (by norm_num))

/-- C3: version dispatch.  A `_version` marker starting with `2.` routes to
the v2 adapter; with `_version` absent, a `version` marker starting with
`3.` routes to the v3 adapter; a marker with any other major version yields
the unsupported-version error carrying the literal string (e.g. `9.0.0`);
a document with neither marker yields the error carrying `unknown`. -/
theorem version_dispatch_routing :
    (∀ (s : String) (m3 : Option VersionMarker), starts_with s "2." = true →
      inner_parse ⟨some (.str s), m3⟩ = .routedV2) ∧
    (∀ s : String, starts_with s "3." = true →
      inner_parse ⟨none, some (.str s)⟩ = .routedV3) ∧
    (∀ (s : String) (m3 : Option VersionMarker), starts_with s "2." = false →
      inner_parse ⟨some (.str s), m3⟩ = .unsupported s) ∧
    (∀ s : String, starts_with s "3." = false →
      inner_parse ⟨none, some (.str s)⟩ = .unsupported s) ∧
    inner_parse ⟨some (.str "9.0.0"), none⟩ = .unsupported "9.0.0" ∧
    inner_parse ⟨none, none⟩ = .unsupported "unknown" := by
  refine ⟨?_, ?_, ?_, ?_, ?_, rfl⟩
  · intro s m3 h; simp [inner_parse, h]
  · intro s h; simp [inner_parse, h]
  · intro s m3 h; simp [inner_parse, h]
  · intro s h; simp [inner_parse, h]
  · have h : starts_with "9.0.0" "2." = false := by decide
    simp [inner_parse, h]

/-- C3 (witness): concrete routing of supported markers. -/
theorem version_dispatch_routing_witness :
    inner_parse ⟨some (.str "2.0.0"), none⟩ = .routedV2 ∧
    inner_parse ⟨none, some (.str "3.2.0")⟩ = .routedV3 :=
  ⟨version_dispatch_routing.1 "2.0.0" none (by decide),
   version_dispatch_routing.2.1 "3.2.0" (by decide)⟩

/-- C10: the `_version` marker has absolute priority.  Whenever `_version`
is a string not starting with `2.`, the result is the unsupported-version
error carrying that exact string, whatever the `version` field holds; and
whenever `_version` is present at all, the `version` field is never
consulted (the outcome is independent of it). -/
theorem version_marker_priority :
    (∀ (s : String) (m3 : Option VersionMarker), starts_with s "2." = false →
      inner_parse ⟨some (.str s), m3⟩ = .unsupported s) ∧
    (∀ (m2 m3 m3' : Option VersionMarker), m2 ≠ none →
      inner_parse ⟨m2, m3⟩ = inner_parse ⟨m2, m3'⟩) := by
  constructor
  · intro s m3 h; simp [inner_parse, h]
  · intro m2 m3 m3' hm2
    cases m2 with
    | none => exact absurd rfl hm2
    | some mk =>
        cases mk with
        | str s => rfl
        | nonString => rfl

/-- C10 (witness): `_version = "3.0.0"` with a well-formed v3 `version`
field present still yields the unsupported error carrying `3.0.0`. -/
theorem version_marker_priority_witness :
    inner_parse ⟨some (.str "3.0.0"), some (.str "3.0.0")⟩ = .unsupported "3.0.0" ∧
    inner_parse ⟨some .nonString, some (.str "3.0.0")⟩ =
      inner_parse ⟨some .nonString, none⟩ :=
  ⟨version_marker_priority.1 "3.0.0" (some (.str "3.0.0")) (by decide),
   version_marker_priority.2 (some .nonString) (some (.str "3.0.0")) none (by simp)⟩

/-- C4: every numeric decoder other than the extended-direction decode is
total.  The precision decode yields a result for every integer, and the
legacy wall-geometry decode yields a `(vertical position, height)` pair for
every raw `u32` wall type — including values strictly between 1 and 1000,
where the `u32` subtraction wraps (release-mode semantics) instead of
failing, e.g. wall type 500. -/
theorem numeric_decoders_total :
    (∀ v : ℤ, ∃ r : ℚ, deserialize_precision v = r) ∧
    (∀ t : ℕ, t < 4294967296 → ∃ y h : ℚ, wallTypeDecode t = (y, h)) ∧
    wallTypeDecode 500 = (-333/500, 1073741699/50) := by
  refine ⟨fun v => ⟨deserialize_precision v, rfl⟩,
    fun t _ => ⟨(wallTypeDecode t).1, (wallTypeDecode t).2, rfl⟩, ?_⟩
  norm_num [wallTypeDecode, u32sub]

/-- C4 (witness): the wall decode is defined at wall type 500 (a value
strictly between 1 and 1000). -/
theorem numeric_decoders_total_witness :
    ∃ y h : ℚ, wallTypeDecode 500 = (y, h) :=
  numeric_decoders_total.2.1 500 (by norm_num)

/-- C5: the precision decode returns `v` unchanged when `|v| < 1000`,
`v/1000 + 1` when `v` is negative with `|v| ≥ 1000`, `v/1000 - 1` when `v`
is positive with `|v| ≥ 1000`, and is deterministic. -/
theorem precision_decode_spec :
    (∀ v : ℤ, |v| < 1000 → deserialize_precision v = (v : ℚ)) ∧
    (∀ v : ℤ, 1000 ≤ |v| → v < 0 → deserialize_precision v = (v : ℚ) / 1000 + 1) ∧
    (∀ v : ℤ, 1000 ≤ |v| → 0 < v → deserialize_precision v = (v : ℚ) / 1000 - 1) ∧
    (∀ v w : ℤ, v = w → deserialize_precision v = deserialize_precision w) := by
  refine ⟨?_, ?_, ?_, fun v w h => by rw [h]⟩
  · intro v hv
    rw [abs_lt] at hv
    rw [deserialize_precision, if_neg (by omega)]
  · intro v hv hneg
    have hcond : v ≤ -1000 ∨ 1000 ≤ v := by
      rcases le_abs.mp hv with h | h
      · exact Or.inr h
      · exact Or.inl (by omega)
    rw [deserialize_precision, if_pos hcond, if_pos hneg]
  · intro v hv hpos
    have hcond : v ≤ -1000 ∨ 1000 ≤ v := by
      rcases le_abs.mp hv with h | h
      · exact Or.inr h
      · exact Or.inl (by omega)
    rw [deserialize_precision, if_pos hcond, if_neg (by omega)]

/-- C5 (witness): identity on a nominal value, and the encoded value -1500
decodes to -1500/1000 + 1. -/
theorem precision_decode_spec_witness :
    deserialize_precision 5 = ((5 : ℤ) : ℚ) ∧
    deserialize_precision (-1500) = (((-1500) : ℤ) : ℚ) / 1000 + 1 :=
  ⟨precision_decode_spec.1 5 (by decide),
   precision_decode_spec.2.1 (-1500) (by decide) (by decide)⟩

/-- C1 (code evaluation at the failing scenario): with base tempo 120 and a
single tempo change to 180 at beat 8, the code maps beat 4 to 8/3 s (not
the 2.0 s the claim states), because the segment search starts at the first
tempo-change segment and extrapolates backwards with 180 BPM; beat 0 maps
to 4/3 s rather than 0.  Beats 8 and 12 do map to 4.0 s and 16/3 s as
claimed. -/
theorem bpm_tracker_multi_segment_eval :
    (BpmTracker.new 120 [⟨8, 180⟩]).beat_to_song_time 4 = 8/3 ∧
    ¬ (BpmTracker.new 120 [⟨8, 180⟩]).beat_to_song_time 4 = 2 ∧
    (BpmTracker.new 120 [⟨8, 180⟩]).beat_to_song_time 8 = 4 ∧
    (BpmTracker.new 120 [⟨8, 180⟩]).beat_to_song_time 12 = 16/3 ∧
    (BpmTracker.new 120 [⟨8, 180⟩]).beat_to_song_time 0 = 4/3 := by
  have hch : (BpmTracker.new 120 [⟨8, 180⟩]).changes = [⟨180, 4, 8⟩] := by
    norm_num [BpmTracker.new, buildChanges, nextChange, segEval]
  have heval : ∀ t : ℚ, (BpmTracker.new 120 [⟨8, 180⟩]).beat_to_song_time t =
      4 + (t - 8) / 180 * 60 := by
    intro t
    simp only [BpmTracker.beat_to_song_time, hch, findSegment, segEval]
  refine ⟨by rw [heval]; norm_num, by rw [heval]; norm_num, by rw [heval]; norm_num,
    by rw [heval]; norm_num, by rw [heval]; norm_num⟩

/-- C6: for a tracker built from beat-ordered events with positive tempos
and a positive base tempo, `beat_to_song_time` is monotone. -/
theorem beat_to_seconds_monotone (base : ℚ) (events : List BpmEvent)
    (hbase : 0 < base)
    (hpos : ∀ e ∈ events, 0 < e.beats)
    (hord : events.Pairwise fun a b => a.song_time ≤ b.song_time)
    (b1 b2 : ℚ) (h : b1 < b2) :
    (BpmTracker.new base events).beat_to_song_time b1 ≤
      (BpmTracker.new base events).beat_to_song_time b2 :=
  tracker_mono base events hbase hpos hord (le_of_lt h)

/-- C6 (witness): monotone on the multi-segment timeline at beats 4 < 12. -/
theorem beat_to_seconds_monotone_witness :
    (BpmTracker.new 120 [⟨8, 180⟩]).beat_to_song_time 4 ≤
      (BpmTracker.new 120 [⟨8, 180⟩]).beat_to_song_time 12 :=
  beat_to_seconds_monotone 120 [⟨8, 180⟩] (by norm_num)
    (by intro e he; rw [List.mem_singleton] at he; subst he; norm_num)
    (List.pairwise_singleton _ _) 4 12 (by norm_num)

/-- C8: a tempo-change event at beat 0 overrides the declared base tempo
entirely (the tracker is independent of the declared base), and with
declared base 100 but an event at beat 0 setting 150, beat 4 maps to
`4 * 60/150 = 8/5` seconds. -/
theorem tempo_change_at_zero_overrides :
    (∀ (b1 b2 : ℚ) (e0 : BpmEvent) (rest : List BpmEvent), e0.song_time = 0 →
      BpmTracker.new b1 (e0 :: rest) = BpmTracker.new b2 (e0 :: rest)) ∧
    (BpmTracker.new 100 [⟨0, 150⟩]).beat_to_song_time 4 = 8/5 := by
  constructor
  · intro b1 b2 e0 rest h
    simp [BpmTracker.new, h]
  · have hch : (BpmTracker.new 100 [⟨0, 150⟩]).changes = [⟨150, 0, 0⟩] := by
      norm_num [BpmTracker.new, buildChanges]
    have heval : (BpmTracker.new 100 [⟨0, 150⟩]).beat_to_song_time 4 =
        segEval (findSegment ⟨150, 0, 0⟩ [] 4) 4 := by
      simp only [BpmTracker.beat_to_song_time, hch]
    rw [heval]
    norm_num [findSegment, segEval]

/-- C8 (witness): with the beat-0 event, declared bases 100 and 999 yield
the same tracker. -/
theorem tempo_change_at_zero_overrides_witness :
    BpmTracker.new 100 [⟨0, 150⟩] = BpmTracker.new 999 [⟨0, 150⟩] :=
  tempo_change_at_zero_overrides.1 100 999 ⟨0, 150⟩ [] rfl

/-- C9: with no tempo-change events, `beat_to_song_time` is exactly the
constant mapping `beat * 60 / base_bpm`; with base 120, beat 2 maps to 1 s. -/
theorem constant_tempo_mapping :
    (∀ base t : ℚ, (BpmTracker.new base []).beat_to_song_time t = t * 60 / base) ∧
    (BpmTracker.new 120 []).beat_to_song_time 2 = 1 := by
  constructor
  · intro base t
    show t * (60 / base) = t * 60 / base
    ring
  · show (2 : ℚ) * (60 / 120) = 1
    norm_num

/-- The obstacle collection produced by `Beatmap::from_v2`, unfolded. -/
lemma from_v2_obstacles (bm : v2.Beatmap) (bpm : ℚ) :
    (Beatmap.from_v2 bm bpm).obstacles =
      bm.obstacles.map fun value =>
        { Obstacle.fromV2 value with
            time := (BpmTracker.new bpm (bm.bpm_events.map BpmEvent.fromV2)).beat_to_song_time
              value.beat,
            end_time := (BpmTracker.new bpm (bm.bpm_events.map BpmEvent.fromV2)).beat_to_song_time
              (value.beat + value.duration),
            duration :=
              (BpmTracker.new bpm (bm.bpm_events.map BpmEvent.fromV2)).beat_to_song_time
                  (value.beat + value.duration) -
                (BpmTracker.new bpm (bm.bpm_events.map BpmEvent.fromV2)).beat_to_song_time
                  value.beat } :=
  rfl

/-- The obstacle collection produced by `Beatmap::from_v3`, unfolded. -/
lemma from_v3_obstacles (bm : v3.Beatmap) (bpm : ℚ) :
    (Beatmap.from_v3 bm bpm).obstacles =
      bm.obstacles.map fun value =>
        { Obstacle.fromV3 value with
            time := (BpmTracker.new bpm (bm.bpm_events.map BpmEvent.fromV3)).beat_to_song_time
              value.beat,
            end_time := (BpmTracker.new bpm (bm.bpm_events.map BpmEvent.fromV3)).beat_to_song_time
              (value.beat + value.duration),
            duration :=
              (BpmTracker.new bpm (bm.bpm_events.map BpmEvent.fromV3)).beat_to_song_time
                  (value.beat + value.duration) -
                (BpmTracker.new bpm (bm.bpm_events.map BpmEvent.fromV3)).beat_to_song_time
                  value.beat } :=
  rfl

/-- C7: every unified obstacle produced by the normalization pipeline (both
dialects, any tempo timeline) satisfies `end_time - time = duration`; and
when the timeline is valid (positive base tempo, positive beat-ordered
event tempos) and the source obstacle's beat duration is non-negative,
`time ≤ end_time`. -/
theorem obstacle_time_roundtrip (bpm : ℚ) (bm2 : v2.Beatmap) (bm3 : v3.Beatmap) :
    (∀ o ∈ (Beatmap.from_v2 bm2 bpm).obstacles, o.end_time - o.time = o.duration) ∧
    (∀ o ∈ (Beatmap.from_v3 bm3 bpm).obstacles, o.end_time - o.time = o.duration) ∧
    (0 < bpm → (∀ e ∈ bm2.bpm_events, 0 < e.beats) →
      bm2.bpm_events.Pairwise (fun a b => a.song_time ≤ b.song_time) →
      (∀ os ∈ bm2.obstacles, 0 ≤ os.duration) →
      ∀ o ∈ (Beatmap.from_v2 bm2 bpm).obstacles, o.time ≤ o.end_time) ∧
    (0 < bpm → (∀ e ∈ bm3.bpm_events, 0 < e.beats) →
      bm3.bpm_events.Pairwise (fun a b => a.song_time ≤ b.song_time) →
      (∀ os ∈ bm3.obstacles, 0 ≤ os.duration) →
      ∀ o ∈ (Beatmap.from_v3 bm3 bpm).obstacles, o.time ≤ o.end_time) := by
  refine ⟨?_, ?_, ?_, ?_⟩
  · intro o ho
    rw [from_v2_obstacles] at ho
    obtain ⟨src, hsrc, rfl⟩ := List.mem_map.mp ho
    rfl
  · intro o ho
    rw [from_v3_obstacles] at ho
    obtain ⟨src, hsrc, rfl⟩ := List.mem_map.mp ho
    rfl
  · intro hbpm hpos hord hdur o ho
    rw [from_v2_obstacles] at ho
    obtain ⟨src, hsrc, rfl⟩ := List.mem_map.mp ho
    show (BpmTracker.new bpm (bm2.bpm_events.map BpmEvent.fromV2)).beat_to_song_time src.beat ≤
      (BpmTracker.new bpm (bm2.bpm_events.map BpmEvent.fromV2)).beat_to_song_time
        (src.beat + src.duration)
    apply tracker_mono
    · exact hbpm
    · intro e he
      obtain ⟨e', he', rfl⟩ := List.mem_map.mp he
      exact hpos e' he'
    · rw [List.pairwise_map]
      exact hord
    · have := hdur src hsrc
      linarith
  · intro hbpm hpos hord hdur o ho
    rw [from_v3_obstacles] at ho
    obtain ⟨src, hsrc, rfl⟩ := List.mem_map.mp ho
    show (BpmTracker.new bpm (bm3.bpm_events.map BpmEvent.fromV3)).beat_to_song_time src.beat ≤
      (BpmTracker.new bpm (bm3.bpm_events.map BpmEvent.fromV3)).beat_to_song_time
        (src.beat + src.duration)
    apply tracker_mono
    · exact hbpm
    · intro e he
      obtain ⟨e', he', rfl⟩ := List.mem_map.mp he
      exact hpos e' he'
    · rw [List.pairwise_map]
      exact hord
    · have := hdur src hsrc
      linarith

/-- C7 (witness): the obstacle produced from a full-height wall at beat 0
with duration 1 beat at 120 BPM satisfies both properties. -/
theorem obstacle_time_roundtrip_witness :
    ({ beat := 0, time := 0, x := 0, y := 0, duration_beats := 1,
       duration := 1/2, end_time := 1/2, width := 1, height := 5 } : Obstacle).end_time -
        ({ beat := 0, time := 0, x := 0, y := 0, duration_beats := 1,
           duration := 1/2, end_time := 1/2, width := 1, height := 5 } : Obstacle).time =
      ({ beat := 0, time := 0, x := 0, y := 0, duration_beats := 1,
         duration := 1/2, end_time := 1/2, width := 1, height := 5 } : Obstacle).duration ∧
    ({ beat := 0, time := 0, x := 0, y := 0, duration_beats := 1,
       duration := 1/2, end_time := 1/2, width := 1, height := 5 } : Obstacle).time ≤
      ({ beat := 0, time := 0, x := 0, y := 0, duration_beats := 1,
         duration := 1/2, end_time := 1/2, width := 1, height := 5 } : Obstacle).end_time := by
  have hmem : ({ beat := 0, time := 0, x := 0, y := 0, duration_beats := 1, duration := 1/2, end_time := 1/2, width := 1, height := 5 } : Obstacle) ∈
      (Beatmap.from_v2
        { version := "2.0.0", notes := [],
          obstacles := [{ beat := 0, wall_type := 0, x := 0, duration := 1, width := 1 }],
          bpm_events := [] } 120).obstacles := by
    rw [from_v2_obstacles]
    simp only [List.map_cons, List.map_nil, List.mem_singleton]
    norm_num [Obstacle.fromV2, wallTypeDecode, BpmTracker.new, BpmTracker.beat_to_song_time]
  have h := obstacle_time_roundtrip 120
    { version := "2.0.0", notes := [],
      obstacles := [{ beat := 0, wall_type := 0, x := 0, duration := 1, width := 1 }],
      bpm_events := [] }
    { version := "3.0.0", color_notes := [], bomb_notes := [], obstacles := [],
      burst_sliders := [], bpm_events := [] }
  refine ⟨h.1 _ hmem, h.2.2.1 (by norm_num) ?_ List.Pairwise.nil ?_ _ hmem⟩
  · intro e he
    simp at he
  · intro os hos
    rw [List.mem_singleton] at hos
    subst hos
    norm_num

end Sabers
